import Mathlib

/-!
Verification of the api-cf Cloudflare worker (src/cfapi/_worker.js):
a reverse proxy for several LLM vendor APIs with credential-pool rotation.

The JavaScript source is shallowly embedded below.  External collaborators
are made explicit parameters:
* the upstream HTTP transport is an oracle `Nat → FetchOutcome` giving the
  outcome of the n-th upstream fetch performed for the request;
* the D1 counter store is the (optional) stored `next_index` row for the
  provider, threaded explicitly;
* the Analytics Engine sink is represented by the emitted `LogRecord`.
Wall-clock latency and request-body streaming are outside the model.
JavaScript string primitives used by the code (substring, split, prefix
test, ASCII lower-casing for the case-insensitive `Headers` lookups) are
implemented structurally over character lists so that every definition
evaluates by kernel reduction.
-/

namespace ApiCf

/-! ## Character-level string primitives -/

/-- Lower-cased copy of a string (the inputs involved are ASCII, where this
agrees with the case-insensitivity of the fetch `Headers` API). -/
def lowerStr (s : String) : String :=
  String.mk (s.data.map Char.toLower)

/-- Does the character list `cs` start with the character list `ps`? -/
def startsWithChars : List Char → List Char → Bool
  | _, [] => true
  | [], _ :: _ => false
  | c :: cs, p :: ps => c = p && startsWithChars cs ps

/-- Accumulator worker for `splitOnChar`. -/
def splitOnCharAux (sep : Char) : List Char → List Char → List String
  | [], acc => [String.mk acc.reverse]
  | c :: cs, acc =>
    if c = sep then String.mk acc.reverse :: splitOnCharAux sep cs []
    else splitOnCharAux sep cs (c :: acc)

/-- Split a string at every occurrence of the separator character; models
the JS split with a one-character separator (always at least one piece). -/
def splitOnChar (sep : Char) (s : String) : List String :=
  splitOnCharAux sep s.data []

/-- JS `s.substring(n)` (line 203 and line 61), dropping the first `n` code
units; the strings involved are ASCII, where code units and characters
coincide. -/
def substringFrom (s : String) (n : Nat) : String :=
  String.mk (s.data.drop n)

/-! ## Headers (the fetch Headers object, name lookup is case-insensitive) -/

/-- Does the entry `p` carry the (case-insensitively compared) header name
`n`? -/
def headerMatches (n : String) (p : String × String) : Bool :=
  lowerStr p.1 == lowerStr n

/-- Models `Headers.has`. -/
def headerHas (hs : List (String × String)) (n : String) : Bool :=
  hs.any (headerMatches n)

/-- Models `Headers.get`: the value stored under the name, if any. -/
def headerGet (hs : List (String × String)) (n : String) : Option String :=
  (hs.find? (headerMatches n)).map (fun p => p.2)

/-- Models `Headers.set`: replace the value of an existing entry, else
append a new entry. -/
def headerSet (hs : List (String × String)) (n v : String) : List (String × String) :=
  if headerHas hs n then
    hs.map (fun p => if headerMatches n p then (p.1, v) else p)
  else hs ++ [(n, v)]

/-! ## Responses -/

/-- An HTTP response as far as the worker observes it: status, body text and
headers.  In JS, `new Response(body, { status })` yields empty headers. -/
structure Resp where
  status : Nat
  body : String
  headers : List (String × String)
deriving Repr, DecidableEq

/-- The allow-list used for the `Access-Control-Allow-Headers` header
(source line 379). -/
def corsAllowHeaders : String :=
  "Content-Type, Authorization, x-api-key, x-goog-api-key, anthropic-version, openai-organization"

/-- The function `applyCorsHeaders` (source lines 374-381): stamp the
permissive CORS headers unless an `Access-Control-Allow-Origin` header is
already present. -/
def applyCorsHeaders (hs : List (String × String)) : List (String × String) :=
  if headerHas hs "Access-Control-Allow-Origin" then hs
  else
    headerSet
      (headerSet (headerSet hs "Access-Control-Allow-Origin" "*")
        "Access-Control-Allow-Methods" "GET, POST, PUT, DELETE, PATCH, OPTIONS")
      "Access-Control-Allow-Headers" corsAllowHeaders

/-- Models `new Response(r.body, r)` followed by `applyCorsHeaders`
(lines 277-279, 295-297, 318-320): status and body preserved, CORS
stamped. -/
def corsOf (r : Resp) : Resp :=
  { status := r.status, body := r.body, headers := applyCorsHeaders r.headers }

/-- The response built by `handleOptions` (lines 383-394). -/
def handleOptionsResp : Resp :=
  { status := 204, body := "",
    headers := [("Access-Control-Allow-Origin", "*"),
      ("Access-Control-Allow-Methods", "GET, POST, PUT, DELETE, PATCH, OPTIONS"),
      ("Access-Control-Allow-Headers", corsAllowHeaders)] }

/-- The malformed-path response (line 128); constructed without CORS headers. -/
def resp325 : Resp := { status := 325, body := "url格式错误", headers := [] }

/-- The missing-pool response (lines 218, 226); constructed without CORS
headers. -/
def resp326 : Resp := { status := 326, body := "未配置轮询api key", headers := [] }

/-- The generic exhaustion response (line 301); constructed without CORS
headers. -/
def exhaustedResp : Resp :=
  { status := 429, body := "所有API密钥均已超出配额，请稍后再试", headers := [] }

/-! ## Routing -/

/-- The ROUTE_MAP object literal (lines 16-22): its five own properties. -/
def ROUTE_MAP : String → Option String
  | "cerebras" => some "api.cerebras.ai"
  | "claude" => some "api.anthropic.com"
  | "gemini" => some "generativelanguage.googleapis.com"
  | "groq" => some "api.groq.com"
  | "openai" => some "api.openai.com"
  | _ => none

/-- The members inherited from `Object.prototype`: a JS property read
`ROUTE_MAP[seg]` on the object literal also finds these, and each of them
is a function or object, hence truthy. -/
def objectProtoProps : List String :=
  ["constructor", "hasOwnProperty", "isPrototypeOf", "propertyIsEnumerable",
   "toLocaleString", "toString", "valueOf", "__proto__",
   "__defineGetter__", "__defineSetter__", "__lookupGetter__", "__lookupSetter__"]

/-- Truthiness of the JS property read `ROUTE_MAP[seg]` used by the
validation at line 126: own properties (the five hosts) are truthy strings,
and inherited `Object.prototype` members are truthy as well. -/
def routeMapTruthy (s : String) : Bool :=
  (ROUTE_MAP s).isSome || objectProtoProps.contains s

/-- The path segment list of line 123: split the URL path on slashes and
drop empty pieces (the JS filter on `Boolean`). -/
def pathSegments (path : String) : List String :=
  (splitOnChar '/' path).filter (fun s => s ≠ "")

/-! ## Requests -/

/-- An inbound request as far as the worker observes it.  `queryKey` is the
value of the `key` search parameter of the URL, if present.
`jsonModelField` models the outcome of the best-effort body parse at
lines 150-152 (clone the request, parse the body as JSON with failures
mapped to an empty object, read its `model` field): `none` when the body is
not valid JSON or the parsed value has no `model` field; the string value
otherwise. -/
structure Req where
  method : String
  path : String
  queryKey : Option String
  headers : List (String × String)
  jsonModelField : Option String
deriving Repr, DecidableEq

/-- JS truthiness filter for an optional string: the empty string is falsy. -/
def jsStr (o : Option String) : Option String :=
  match o with
  | some s => if s = "" then none else some s
  | none => none

/-- The function `extractApiKey` (lines 32-65): gemini reads the
`x-goog-api-key` header, falling back to the `key` query parameter; claude
reads `x-api-key`; every other provider reads `Authorization` and strips a
`Bearer ` prefix (7 code units). -/
def extractApiKey (req : Req) (service : String) : Option String :=
  if service = "gemini" then
    match jsStr (headerGet req.headers "x-goog-api-key") with
    | some k => some k
    | none => jsStr req.queryKey
  else if service = "claude" then
    jsStr (headerGet req.headers "x-api-key")
  else
    match jsStr (headerGet req.headers "Authorization") with
    | some a =>
      if startsWithChars a.data ("Bearer ".data) then some (substringFrom a 7) else none
    | none => none

/-! ## The D1 rotation counter -/

/-- One execution of the atomic upsert at lines 84-92 against the stored row
of the provider: insert `next_index = 1` when the row is absent, otherwise
replace the stored value `v` by `(v + 1) % keysCount`; returns the
post-increment value (the RETURNING clause) together with the new stored
row. -/
def d1AdvanceRow (row : Option Nat) (keysCount : Nat) : Nat × Nat :=
  match row with
  | none => (1, 1)
  | some v => ((v + 1) % keysCount, (v + 1) % keysCount)

/-- The function `getNextKeyIndex` (lines 74-102) given the current stored
row.  The JS expression `results[0]?.next_index || 1` coerces a falsy
post-increment value — in particular the value 0 produced when the counter
wraps — to 1, and the returned index is
`(nextIndex - 1 + keysCount) % keysCount`.  Returns the index and the new
stored row. -/
def getNextKeyIndex (row : Option Nat) (keysCount : Nat) : Nat × Option Nat :=
  let p := d1AdvanceRow row keysCount
  let nextIndex := if p.1 = 0 then 1 else p.1
  ((nextIndex - 1 + keysCount) % keysCount, some p.2)

/-- The indices produced by `count` consecutive sequential calls of
`getNextKeyIndex` for the same provider, starting from stored row `row`. -/
def getNextKeyIndexRun (row : Option Nat) (keysCount : Nat) : Nat → List Nat
  | 0 => []
  | Nat.succ m =>
    let r := getNextKeyIndex row keysCount
    r.1 :: getNextKeyIndexRun r.2 keysCount m

/-! ## JS parseInt -/

/-- The whitespace skipped by JS `parseInt` (ASCII part). -/
def isJsSpace (c : Char) : Bool :=
  c = ' ' || c = '\t' || c = '\n' || c = '\r' || c = '\x0b' || c = '\x0c'

/-- Value of a character as a digit; 100 when it is no hexadecimal digit. -/
def jsDigitVal (c : Char) : Nat :=
  if '0' ≤ c ∧ c ≤ '9' then c.toNat - '0'.toNat
  else if 'a' ≤ c ∧ c ≤ 'f' then c.toNat - 'a'.toNat + 10
  else if 'A' ≤ c ∧ c ≤ 'F' then c.toNat - 'A'.toNat + 10
  else 100

/-- JS `parseInt(s)` as called at line 230: skip leading whitespace, read an
optional sign, detect a hexadecimal prefix (radix 16, else 10), then take
the longest run of digits of the radix; no digit at all yields `NaN`,
modelled as `none`. -/
def jsParseInt (s : String) : Option Int :=
  let cs := s.data.dropWhile isJsSpace
  let sgn : Int := match cs with
    | '-' :: _ => -1
    | _ => 1
  let cs1 := match cs with
    | '-' :: rest => rest
    | '+' :: rest => rest
    | _ => cs
  let rp : Nat × List Char := match cs1 with
    | '0' :: c :: rest => if c = 'x' ∨ c = 'X' then (16, rest) else (10, cs1)
    | _ => (10, cs1)
  let ds := rp.2.takeWhile (fun c => jsDigitVal c < rp.1)
  if ds.isEmpty then none
  else some (sgn * (Int.ofNat (ds.foldl (fun a c => a * rp.1 + jsDigitVal c) 0)))

/-! ## Configuration -/

/-- The per-provider key-pool environment value, classified by what
`JSON.parse` does with it (lines 214-227). -/
inductive KeysCfg where
  /-- Unset (or empty, which is falsy at line 216). -/
  | absent
  /-- Parsing throws: `JSON.parse` raised an error with message `msg`. -/
  | invalid (msg : String)
  /-- Parses, but not to an array. -/
  | nonArray
  /-- Parses to an array of strings. -/
  | array (keys : List String)
deriving Repr, DecidableEq

/-- The worker environment.  `MASTER_KEY` and `ROTATION_LIMIT` are `none`
when unset or empty (both are used in JS truthiness tests); `LOGS` and `DB`
record whether those bindings exist. -/
structure Env where
  MASTER_KEY : Option String
  keysCfg : String → KeysCfg
  ROTATION_LIMIT : Option String
  LOGS : Bool
  DB : Bool

/-- The configured rotation limit of line 230: `parseInt` of the
`ROTATION_LIMIT` value when that is set, else the default 5; `none` is the
`NaN` result of `parseInt`. -/
def rotationLimitOf (env : Env) : Option Int :=
  match env.ROTATION_LIMIT with
  | none => some 5
  | some s => jsParseInt s

/-- Number of iterations of the `for` loop at line 236, whose bound is the
JS minimum of the rotation limit and the pool size: a `NaN` limit makes the
loop condition false on entry (zero iterations), a negative limit likewise,
and otherwise the loop runs `min(limit, poolSize)` times. -/
def maxRetriesNat (limit : Option Int) (poolSize : Nat) : Nat :=
  match limit with
  | none => 0
  | some k => (min k (Int.ofNat poolSize)).toNat

/-! ## Upstream calls -/

/-- The outbound request the worker hands to `fetch`, as far as the code
constructs it: target host, rewritten path, method, headers and the `key`
search parameter. -/
structure OutboundReq where
  host : String
  path : String
  method : String
  headers : List (String × String)
  queryKey : Option String
deriving Repr, DecidableEq

/-- One upstream attempt: the request sent and, in rotation mode, the pool
index whose credential was injected. -/
structure UpstreamCall where
  request : OutboundReq
  keyIndex : Option Nat
deriving Repr, DecidableEq

/-- Outcome of one upstream fetch: a response, or a thrown network error. -/
inductive FetchOutcome where
  | ok (r : Resp)
  | fail (msg : String)
deriving Repr, DecidableEq

/-- Does this outcome make the rotation loop continue with the next key?
(the status test at line 275 and the catch at line 284: a 429 response or a
thrown fetch). -/
def retryOn : FetchOutcome → Bool
  | FetchOutcome.ok r => r.status = 429
  | FetchOutcome.fail _ => true

/-- The proxy request built per rotation attempt (lines 240-269): inject the
selected credential using the convention of the provider; for gemini also
drop the `key` search parameter. -/
def rotationOutbound (req : Req) (service host outPath selectedKey : String) : OutboundReq :=
  if service = "gemini" then
    { host := host, path := outPath, method := req.method,
      headers := headerSet req.headers "x-goog-api-key" selectedKey,
      queryKey := none }
  else if service = "claude" then
    { host := host, path := outPath, method := req.method,
      headers := headerSet req.headers "x-api-key" selectedKey,
      queryKey := req.queryKey }
  else
    { host := host, path := outPath, method := req.method,
      headers := headerSet req.headers "Authorization" ("Bearer " ++ selectedKey),
      queryKey := req.queryKey }

/-- The code after the loop (lines 292-301): return the last response when
it was a 429 (status, body and headers preserved, CORS stamped), else the
generic exhaustion response. -/
def rotationExit (last : Option Resp) : Resp :=
  match last with
  | some r => if r.status = 429 then corsOf r else exhaustedResp
  | none => exhaustedResp

/-- The rotation retry loop (lines 236-290), by remaining iterations:
try the credential at `currentIndex`; a non-429 response is returned
immediately with CORS applied; a 429 response is recorded as last response
and the index advances by one modulo the pool size; a thrown fetch advances
likewise but leaves the last response unchanged.  Also returns the trace of
upstream calls made. -/
def rotationLoop (oracle : Nat → FetchOutcome) (req : Req)
    (service host outPath : String) (keys : List String) :
    Nat → Nat → Nat → Option Resp → Resp × List UpstreamCall
  | 0, _, _, last => (rotationExit last, [])
  | Nat.succ fuel, attemptNo, currentIndex, last =>
    let call : UpstreamCall :=
      { request := rotationOutbound req service host outPath (keys.getD currentIndex "undefined"),
        keyIndex := some currentIndex }
    match oracle attemptNo with
    | FetchOutcome.ok r =>
      if r.status = 429 then
        let res := rotationLoop oracle req service host outPath keys fuel
          (attemptNo + 1) ((currentIndex + 1) % keys.length) (some r)
        (res.1, call :: res.2)
      else (corsOf r, [call])
    | FetchOutcome.fail _ =>
      let res := rotationLoop oracle req service host outPath keys fuel
        (attemptNo + 1) ((currentIndex + 1) % keys.length) last
      (res.1, call :: res.2)

/-! ## The request handler -/

/-- What `handleRequestWithRotation` hands back to `fetch`: a response, or a
propagated exception (a thrown pass-through fetch). -/
inductive HandlerOut where
  | resp (r : Resp)
  | thrown (msg : String)
deriving Repr, DecidableEq

/-- Pass-through mode (lines 309-320): one upstream call with the original
method, headers and query, CORS applied to the response; a thrown fetch
propagates to the caller. -/
def passThrough (oracle : Nat → FetchOutcome) (req : Req) (host outPath : String) :
    HandlerOut × List UpstreamCall :=
  let call : UpstreamCall :=
    { request := { host := host, path := outPath, method := req.method,
                   headers := req.headers, queryKey := req.queryKey },
      keyIndex := none }
  match oracle 0 with
  | FetchOutcome.ok r => (HandlerOut.resp (corsOf r), [call])
  | FetchOutcome.fail msg => (HandlerOut.thrown msg, [call])

/-- The function `handleRequestWithRotation` (lines 193-321).  `row` is the
stored counter row of the provider.  Rotation mode is entered when a master
key is configured and the extracted inbound credential equals it; the pool
configuration and the D1 binding are then checked, and the rotation loop
runs `min(rotationLimit, poolSize)` times starting at the index produced by
`getNextKeyIndex`.  Otherwise the request passes through. -/
def handleRequestWithRotation (oracle : Nat → FetchOutcome) (row : Option Nat)
    (req : Req) (service host : String) (env : Env) : HandlerOut × List UpstreamCall :=
  if req.method = "OPTIONS" then (HandlerOut.resp handleOptionsResp, [])
  else
    let outPath := substringFrom req.path (service.length + 1)
    match env.MASTER_KEY with
    | some masterKey =>
      if extractApiKey req service = some masterKey then
        match env.keysCfg service with
        | KeysCfg.absent => (HandlerOut.resp resp326, [])
        | KeysCfg.invalid msg =>
          (HandlerOut.resp { status := 500, body := "轮询配置错误: " ++ msg, headers := [] }, [])
        | KeysCfg.nonArray => (HandlerOut.resp resp326, [])
        | KeysCfg.array keys =>
          if keys.isEmpty then (HandlerOut.resp resp326, [])
          else if env.DB then
            let res := rotationLoop oracle req service host outPath keys
              (maxRetriesNat (rotationLimitOf env) keys.length) 0
              (getNextKeyIndex row keys.length).1 none
            (HandlerOut.resp res.1, res.2)
          else
            (HandlerOut.resp
              { status := 500, body := "轮询配置错误: D1数据库未配置", headers := [] }, [])
      else passThrough oracle req host outPath
    | none => passThrough oracle req host outPath

/-! ## The worker entry point -/

/-- The data point handed to the Analytics Engine by `logRequest`
(lines 331-370), minus the wall-clock latency (outside the model). -/
structure LogRecord where
  service : String
  model : String
  errorMsg : Option String
  status : Nat
deriving Repr, DecidableEq

/-- Best-effort model extraction (lines 137-157): only on a POST request
with the `LOGS` binding present; for gemini the model comes from path
segment 3 when segment 2 is `models` (truncated at the first colon), for
the other providers from the `model` field of the body parse; every failure
yields the string `unknown`. -/
def extractModel (env : Env) (req : Req) (service : String) (segs : List String) : String :=
  if env.LOGS ∧ req.method = "POST" then
    if service = "gemini" then
      if 4 ≤ segs.length ∧ segs.getD 2 "" = "models" then
        let m0 := (splitOnChar ':' (segs.getD 3 "")).headD ""
        if m0 = "" then "unknown" else m0
      else "unknown"
    else
      match req.jsonModelField with
      | some m => if m = "" then "unknown" else m
      | none => "unknown"
  else "unknown"

/-- Everything `fetch` produces for one request: the response to the caller,
the upstream calls made, and the observability record (present exactly when
the `LOGS` binding is configured and the request passed path validation). -/
structure WorkerResult where
  response : Resp
  calls : List UpstreamCall
  log : Option LogRecord
deriving Repr, DecidableEq

/-- The worker `fetch` entry point (lines 113-181), assuming the inbound URL
parses (Cloudflare hands workers absolute URLs).  Requests whose first path
segment is missing or whose ROUTE_MAP lookup is falsy get the 325 response
with no upstream call and no log.  When the first segment is an inherited
`Object.prototype` property name the lookup is truthy but yields no host
string; the JS then assigns a function object to `url.hostname`, behavior
outside this model, marked `none`. -/
def workerFetch (oracle : Nat → FetchOutcome) (row : Option Nat) (env : Env)
    (req : Req) : Option WorkerResult :=
  match pathSegments req.path with
  | [] => some { response := resp325, calls := [], log := none }
  | service :: _ =>
    if routeMapTruthy service then
      match ROUTE_MAP service with
      | some host =>
        let model := extractModel env req service (pathSegments req.path)
        match handleRequestWithRotation oracle row req service host env with
        | (HandlerOut.resp r, calls) =>
          some { response := r, calls := calls,
                 log := if env.LOGS then
                   some { service := service, model := model, errorMsg := none, status := r.status }
                 else none }
        | (HandlerOut.thrown msg, calls) =>
          some { response :=
                   { status := 500,
                     body := if msg = "" then "An unexpected error occurred." else msg,
                     headers := [] },
                 calls := calls,
                 log := if env.LOGS then
                   some { service := service, model := model, errorMsg := some msg, status := 500 }
                 else none }
      | none => none
    else some { response := resp325, calls := [], log := none }

/-- Joins strings with slashes between them. -/
def joinSlash : List String → String
  | [] => ""
  | [s] => s
  | s :: rest => s ++ "/" ++ joinSlash rest

/-- Modelled from the spec: the outbound URL is the inbound URL with the
leading provider path segment stripped — removal of the first path segment,
for comparison with what the code computes. -/
def specStripLeadingSegment (path : String) : String :=
  "/" ++ joinSlash ((pathSegments path).drop 1)

end ApiCf

namespace ApiCf

/-! ## Helper lemmas -/

/-- Dropping the length of a leading piece of a concatenation leaves the
rest. -/
theorem substringFrom_of_append (pre rest : String) :
    substringFrom (pre ++ rest) pre.length = rest := by
  show String.mk (((pre ++ rest).data).drop pre.data.length) = rest
  rw [String.data_append, List.drop_left]

/-- The index handed out by the counter advance is always inside the pool. -/
theorem getNextKeyIndex_lt (row : Option Nat) (n : Nat) (hn : 1 ≤ n) :
    (getNextKeyIndex row n).1 < n :=
  Nat.mod_lt _ hn

/-- Replacing the value of a header entry does not change which names it
matches. -/
theorem headerMatches_setEntry (m n v : String) (p : String × String) :
    headerMatches m (if headerMatches n p = true then (p.1, v) else p) = headerMatches m p := by
  by_cases hp : headerMatches n p = true
  · rw [if_pos hp]; rfl
  · rw [if_neg hp]

/-- The in-place update branch of `headerSet` preserves all name lookups. -/
theorem any_map_setEntry (m n v : String) (hs : List (String × String)) :
    ((hs.map (fun p => if headerMatches n p = true then (p.1, v) else p)).any (headerMatches m))
      = hs.any (headerMatches m) := by
  induction hs with
  | nil => rfl
  | cons p rest ih =>
    rw [List.map_cons, List.any_cons, List.any_cons, ih, headerMatches_setEntry]

/-- After setting a header, it is present. -/
theorem headerHas_set_self (hs : List (String × String)) (n v : String) :
    headerHas (headerSet hs n v) n = true := by
  unfold headerSet
  by_cases h : headerHas hs n
  · rw [if_pos h]
    show ((hs.map _).any (headerMatches n)) = true
    rw [any_map_setEntry]
    exact h
  · rw [if_neg h]
    show ((hs ++ [(n, v)]).any (headerMatches n)) = true
    simp [List.any_append, headerMatches]

/-- Setting one header leaves the presence of others unchanged. -/
theorem headerHas_set_other (hs : List (String × String)) (n v m : String)
    (hm : lowerStr m ≠ lowerStr n) :
    headerHas (headerSet hs n v) m = headerHas hs m := by
  unfold headerSet
  by_cases h : headerHas hs n
  · rw [if_pos h]
    exact any_map_setEntry m n v hs
  · rw [if_neg h]
    show ((hs ++ [(n, v)]).any (headerMatches m)) = headerHas hs m
    have hf : headerMatches m (n, v) = false := by
      simp only [headerMatches]
      exact beq_eq_false_iff_ne.mpr (fun hc => hm (hc.symm))
    simp [List.any_append, hf, headerHas]

/-- Shifting a range of residues by one position. -/
theorem range_map_shift (n len i : Nat) (hi : i < n) :
    (List.range (len + 1)).map (fun j => some ((i + j) % n))
      = some i :: (List.range len).map (fun j => some (((i + 1) % n + j) % n)) := by
  rw [List.range_succ_eq_map, List.map_cons, List.map_map]
  congr 1
  · simp [Nat.mod_eq_of_lt hi]
  · have hfun : ((fun j => some ((i + j) % n)) ∘ Nat.succ)
        = (fun j => some (((i + 1) % n + j) % n)) := by
      funext j
      show some ((i + Nat.succ j) % n) = some (((i + 1) % n + j) % n)
      rw [Nat.mod_add_mod]
      congr 2
      omega
    rw [hfun]

/-- The loop makes at most as many upstream calls as it has iterations. -/
theorem rotationLoop_length_le (oracle : Nat → FetchOutcome) (req : Req)
    (service host outPath : String) (keys : List String) :
    ∀ fuel a i last,
      (rotationLoop oracle req service host outPath keys fuel a i last).2.length ≤ fuel := by
  intro fuel
  induction fuel with
  | zero => intro a i last; simp [rotationLoop]
  | succ f ih =>
    intro a i last
    cases h : oracle a with
    | ok r =>
      by_cases hr : r.status = 429
      · simp only [rotationLoop, h, hr, if_true, List.length_cons]
        exact Nat.succ_le_succ (ih (a + 1) ((i + 1) % keys.length) (some r))
      · simp [rotationLoop, h, hr]
    | fail msg =>
      simp only [rotationLoop, h, List.length_cons]
      exact Nat.succ_le_succ (ih (a + 1) ((i + 1) % keys.length) last)

/-- The pool indices tried by the loop are consecutive residues starting at
the initial index. -/
theorem rotationLoop_indices (oracle : Nat → FetchOutcome) (req : Req)
    (service host outPath : String) (keys : List String) :
    ∀ fuel a i last, i < keys.length →
      ((rotationLoop oracle req service host outPath keys fuel a i last).2.map
          (fun c => c.keyIndex))
        = (List.range
            (rotationLoop oracle req service host outPath keys fuel a i last).2.length).map
            (fun j => some ((i + j) % keys.length)) := by
  intro fuel
  induction fuel with
  | zero => intro a i last hi; simp [rotationLoop]
  | succ f ih =>
    intro a i last hi
    have hn : 0 < keys.length := Nat.lt_of_le_of_lt (Nat.zero_le i) hi
    have hnext : (i + 1) % keys.length < keys.length := Nat.mod_lt _ hn
    cases h : oracle a with
    | ok r =>
      by_cases hr : r.status = 429
      · have IH := ih (a + 1) ((i + 1) % keys.length) (some r) hnext
        simp only [rotationLoop, h, hr, if_true, List.map_cons, List.length_cons]
        rw [IH, range_map_shift keys.length _ i hi]
      · simp only [rotationLoop, h, hr, if_false, ite_false]
        simp [List.range_succ, Nat.mod_eq_of_lt hi]
    | fail msg =>
      have IH := ih (a + 1) ((i + 1) % keys.length) last hnext
      simp only [rotationLoop, h, List.map_cons, List.length_cons]
      rw [IH, range_map_shift keys.length _ i hi]

/-- When every attempt yields a 429 response, the loop runs to exhaustion
and hands back the response of the last attempt. -/
theorem rotationLoop_all429 (oracle : Nat → FetchOutcome) (req : Req)
    (service host outPath : String) (keys : List String) (r : Nat → Resp) :
    ∀ fuel a i last,
      (∀ t, t < fuel + 1 →
        oracle (a + t) = FetchOutcome.ok (r (a + t)) ∧ (r (a + t)).status = 429) →
      (rotationLoop oracle req service host outPath keys (fuel + 1) a i last).1
        = corsOf (r (a + fuel)) := by
  intro fuel
  induction fuel with
  | zero =>
    intro a i last hyp
    have h0 := hyp 0 Nat.zero_lt_one
    rw [Nat.add_zero] at h0
    simp [rotationLoop, h0.1, h0.2, rotationExit]
  | succ f ih =>
    intro a i last hyp
    have h0 := hyp 0 (Nat.succ_pos (f + 1))
    rw [Nat.add_zero] at h0
    have hshift : ∀ t, t < f + 1 →
        oracle ((a + 1) + t) = FetchOutcome.ok (r ((a + 1) + t))
          ∧ (r ((a + 1) + t)).status = 429 := by
      intro t ht
      have hh := hyp (t + 1) (by omega)
      have harith : a + (t + 1) = (a + 1) + t := by omega
      rwa [harith] at hh
    have IH := ih (a + 1) ((i + 1) % keys.length) (some (r a)) hshift
    have harith2 : (a + 1) + f = a + (f + 1) := by omega
    rw [harith2] at IH
    simp only [rotationLoop, h0.1, h0.2, if_true]
    exact IH

/-- A non-429 response at attempt `t`, after retryable outcomes only,
terminates the loop at exactly `t + 1` calls with that response. -/
theorem rotationLoop_stop (oracle : Nat → FetchOutcome) (req : Req)
    (service host outPath : String) (keys : List String) (R : Resp)
    (hR : R.status ≠ 429) :
    ∀ t fuel a i last, t < fuel →
      (∀ j, j < t → retryOn (oracle (a + j)) = true) →
      oracle (a + t) = FetchOutcome.ok R →
      (rotationLoop oracle req service host outPath keys fuel a i last).1 = corsOf R ∧
      (rotationLoop oracle req service host outPath keys fuel a i last).2.length = t + 1 := by
  intro t
  induction t with
  | zero =>
    intro fuel a i last hf _ hT
    cases fuel with
    | zero => omega
    | succ f =>
      rw [Nat.add_zero] at hT
      simp [rotationLoop, hT, hR]
  | succ t ih =>
    intro fuel a i last hf hpre hT
    cases fuel with
    | zero => omega
    | succ f =>
      have h0 := hpre 0 (Nat.succ_pos t)
      rw [Nat.add_zero] at h0
      have hpre2 : ∀ j, j < t → retryOn (oracle ((a + 1) + j)) = true := by
        intro j hj
        have hh := hpre (j + 1) (by omega)
        have harith : a + (j + 1) = (a + 1) + j := by omega
        rwa [harith] at hh
      have hT2 : oracle ((a + 1) + t) = FetchOutcome.ok R := by
        have harith : a + (t + 1) = (a + 1) + t := by omega
        rwa [harith] at hT
      cases h : oracle a with
      | ok r =>
        rw [h] at h0
        have hr : r.status = 429 := by
          simpa [retryOn, decide_eq_true_eq] using h0
        have IH := ih f (a + 1) ((i + 1) % keys.length) (some r) (by omega) hpre2 hT2
        simp only [rotationLoop, h, hr, if_true, List.length_cons]
        exact ⟨IH.1, by rw [IH.2]⟩
      | fail msg =>
        have IH := ih f (a + 1) ((i + 1) % keys.length) last (by omega) hpre2 hT2
        simp only [rotationLoop, h, List.length_cons]
        exact ⟨IH.1, by rw [IH.2]⟩

/-- In rotation mode the handler is exactly the rotation loop. -/
theorem handler_rotation (oracle : Nat → FetchOutcome) (row : Option Nat) (req : Req)
    (service host : String) (env : Env) (m : String) (keys : List String)
    (hm : req.method ≠ "OPTIONS")
    (hmk : env.MASTER_KEY = some m)
    (hex : extractApiKey req service = some m)
    (hcfg : env.keysCfg service = KeysCfg.array keys)
    (hne : keys ≠ [])
    (hdb : env.DB = true) :
    handleRequestWithRotation oracle row req service host env =
      ((HandlerOut.resp
        (rotationLoop oracle req service host (substringFrom req.path (service.length + 1)) keys
          (maxRetriesNat (rotationLimitOf env) keys.length) 0
          (getNextKeyIndex row keys.length).1 none).1),
       (rotationLoop oracle req service host (substringFrom req.path (service.length + 1)) keys
          (maxRetriesNat (rotationLimitOf env) keys.length) 0
          (getNextKeyIndex row keys.length).1 none).2) := by
  have hne2 : keys.isEmpty = false := by
    cases keys with
    | nil => exact absurd rfl hne
    | cons a l => rfl
  simp [handleRequestWithRotation, hm, hmk, hex, hcfg, hne2, hdb]

end ApiCf

namespace ApiCf

/-! ## Concrete fixtures used by witnesses and counterexamples -/

/-- A rate-limited upstream response. -/
def resp429W : Resp := { status := 429, body := "rate limited", headers := [] }

/-- A successful upstream response. -/
def resp200W : Resp := { status := 200, body := "hello", headers := [] }

/-- An upstream that always rate-limits. -/
def oracleAll429 : Nat → FetchOutcome := fun _ => FetchOutcome.ok resp429W

/-- An upstream that always succeeds. -/
def oracleAll200 : Nat → FetchOutcome := fun _ => FetchOutcome.ok resp200W

/-- An upstream that rate-limits the first attempt and then succeeds. -/
def oracleMix : Nat → FetchOutcome := fun t =>
  if t = 0 then FetchOutcome.ok resp429W else FetchOutcome.ok resp200W

/-- An environment with rotation fully configured (pool of three keys). -/
def envRotW : Env :=
  { MASTER_KEY := some "M", keysCfg := fun _ => KeysCfg.array ["k1", "k2", "k3"],
    ROTATION_LIMIT := none, LOGS := true, DB := true }

/-- A rotation-eligible inbound request for the openai provider. -/
def reqRotW : Req :=
  { method := "POST", path := "/openai/v1/chat", queryKey := none,
    headers := [("Authorization", "Bearer M")], jsonModelField := some "gpt-4o" }

/-- An environment with no master key but with the LOGS binding. -/
def envLogsOnly : Env :=
  { MASTER_KEY := none, keysCfg := fun _ => KeysCfg.absent,
    ROTATION_LIMIT := none, LOGS := true, DB := false }

/-- A request with an unknown provider segment. -/
def reqFoo : Req :=
  { method := "GET", path := "/foo/bar", queryKey := none, headers := [], jsonModelField := none }

/-- A request whose first segment is an inherited `Object.prototype`
property name. -/
def reqCtor : Req :=
  { method := "GET", path := "/constructor/x", queryKey := none, headers := [],
    jsonModelField := none }

/-! ## Claims -/

/-- Claim C1: for every rotation-mode request with a configured non-empty
pool and a configured (non-NaN, non-negative) retry limit — defaulting to 5
when ROTATION_LIMIT is unset — the pool indices tried start at the index
returned by `getNextKeyIndex` and increase by one modulo the pool size per
attempt, and the number of upstream attempts is at most
`min(limit, poolSize)`; a limit larger than the pool size is silently
clamped, never an error. -/
theorem rotation_sequential_indices
    (oracle : Nat → FetchOutcome) (row : Option Nat) (req : Req)
    (service host : String) (env : Env) (m : String) (keys : List String) (L : Int)
    (hm : req.method ≠ "OPTIONS")
    (hmk : env.MASTER_KEY = some m)
    (hex : extractApiKey req service = some m)
    (hcfg : env.keysCfg service = KeysCfg.array keys)
    (hne : keys ≠ [])
    (hdb : env.DB = true)
    (hlim : rotationLimitOf env = some L)
    (hL : 0 ≤ L) :
    ((handleRequestWithRotation oracle row req service host env).2.map (fun c => c.keyIndex)
      = (List.range (handleRequestWithRotation oracle row req service host env).2.length).map
          (fun j => some (((getNextKeyIndex row keys.length).1 + j) % keys.length)))
    ∧ (handleRequestWithRotation oracle row req service host env).2.length
        ≤ min L.toNat keys.length := by
  have hne1 : 1 ≤ keys.length := by
    cases keys with
    | nil => exact absurd rfl hne
    | cons a l => simp
  have hstart := getNextKeyIndex_lt row keys.length hne1
  rw [handler_rotation oracle row req service host env m keys hm hmk hex hcfg hne hdb]
  refine ⟨rotationLoop_indices oracle req service host _ keys _ 0 _ none hstart, ?_⟩
  have hlen := rotationLoop_length_le oracle req service host
    (substringFrom req.path (service.length + 1)) keys
    (maxRetriesNat (rotationLimitOf env) keys.length) 0
    (getNextKeyIndex row keys.length).1 none
  have hmax : maxRetriesNat (rotationLimitOf env) keys.length = min L.toNat keys.length := by
    rw [hlim]
    show (min L (Int.ofNat keys.length)).toNat = min L.toNat keys.length
    rw [Int.ofNat_eq_coe]
    rcases le_total L ((keys.length : Int)) with hc | hc
    · rw [min_eq_left hc, min_eq_left (by omega : L.toNat ≤ keys.length)]
    · rw [min_eq_right hc, min_eq_right (by omega : keys.length ≤ L.toNat)]
      omega
  dsimp only
  rw [← hmax]
  exact hlen

/-- Witness for claim C1 at a concrete rotation request with pool size 3 and
the default limit 5. -/
theorem rotation_sequential_indices_witness :
    ((handleRequestWithRotation oracleAll429 none reqRotW "openai" "api.openai.com" envRotW).2.map
        (fun c => c.keyIndex)
      = (List.range
          (handleRequestWithRotation oracleAll429 none reqRotW "openai" "api.openai.com"
            envRotW).2.length).map
          (fun j => some (((getNextKeyIndex none 3).1 + j) % 3)))
    ∧ (handleRequestWithRotation oracleAll429 none reqRotW "openai" "api.openai.com"
        envRotW).2.length ≤ min (Int.toNat 5) 3 :=
  rotation_sequential_indices oracleAll429 none reqRotW "openai" "api.openai.com" envRotW "M"
    ["k1", "k2", "k3"] 5 (by decide) rfl (by decide) rfl (by decide) rfl rfl (by decide)

/-- Claim C3: when every performed upstream attempt yields a 429 response
and at least one attempt is performed, the returned response has status 429
and carries the body of the last attempt verbatim. -/
theorem rotation_all429_returns_last
    (oracle : Nat → FetchOutcome) (row : Option Nat) (req : Req)
    (service host : String) (env : Env) (m : String) (keys : List String) (r : Nat → Resp)
    (hm : req.method ≠ "OPTIONS")
    (hmk : env.MASTER_KEY = some m)
    (hex : extractApiKey req service = some m)
    (hcfg : env.keysCfg service = KeysCfg.array keys)
    (hne : keys ≠ [])
    (hdb : env.DB = true)
    (hN : 1 ≤ maxRetriesNat (rotationLimitOf env) keys.length)
    (hall : ∀ t, t < maxRetriesNat (rotationLimitOf env) keys.length →
        oracle t = FetchOutcome.ok (r t) ∧ (r t).status = 429) :
    (handleRequestWithRotation oracle row req service host env).1
      = HandlerOut.resp
          { status := 429,
            body := (r (maxRetriesNat (rotationLimitOf env) keys.length - 1)).body,
            headers :=
              applyCorsHeaders
                ((r (maxRetriesNat (rotationLimitOf env) keys.length - 1)).headers) } := by
  rw [handler_rotation oracle row req service host env m keys hm hmk hex hcfg hne hdb]
  dsimp only
  obtain ⟨f, hf⟩ : ∃ f, maxRetriesNat (rotationLimitOf env) keys.length = f + 1 :=
    ⟨maxRetriesNat (rotationLimitOf env) keys.length - 1, by omega⟩
  rw [hf]
  rw [Nat.add_sub_cancel]
  have hyp : ∀ t, t < f + 1 →
      oracle (0 + t) = FetchOutcome.ok (r (0 + t)) ∧ (r (0 + t)).status = 429 := by
    intro t ht
    have hh := hall t (by omega)
    simpa using hh
  have hmain := rotationLoop_all429 oracle req service host
    (substringFrom req.path (service.length + 1)) keys r f 0
    (getNextKeyIndex row keys.length).1 none hyp
  rw [Nat.zero_add] at hmain
  rw [hmain]
  have hst := (hall f (by omega)).2
  show HandlerOut.resp (corsOf (r f)) = _
  unfold corsOf
  rw [hst]

/-- Witness for claim C3: three keys, every attempt 429; the rate-limited
body of the last attempt is returned. -/
theorem rotation_all429_returns_last_witness :
    (handleRequestWithRotation oracleAll429 none reqRotW "openai" "api.openai.com" envRotW).1
      = HandlerOut.resp
          { status := 429, body := "rate limited",
            headers := applyCorsHeaders ([] : List (String × String)) } :=
  rotation_all429_returns_last oracleAll429 none reqRotW "openai" "api.openai.com" envRotW "M"
    ["k1", "k2", "k3"] (fun _ => resp429W) (by decide) rfl (by decide) rfl (by decide) rfl
    (by decide) (fun t ht => ⟨rfl, rfl⟩)

/-- Claim C4: an upstream attempt whose response status is not 429
terminates the retry loop immediately; that response is returned with
status and body preserved, and exactly the attempts up to it are made (in
particular, a non-429 first response means exactly one upstream call). -/
theorem rotation_non429_stops
    (oracle : Nat → FetchOutcome) (row : Option Nat) (req : Req)
    (service host : String) (env : Env) (m : String) (keys : List String) (R : Resp) (t : Nat)
    (hm : req.method ≠ "OPTIONS")
    (hmk : env.MASTER_KEY = some m)
    (hex : extractApiKey req service = some m)
    (hcfg : env.keysCfg service = KeysCfg.array keys)
    (hne : keys ≠ [])
    (hdb : env.DB = true)
    (ht : t < maxRetriesNat (rotationLimitOf env) keys.length)
    (hpre : ∀ j, j < t → retryOn (oracle j) = true)
    (hT : oracle t = FetchOutcome.ok R)
    (hR : R.status ≠ 429) :
    (handleRequestWithRotation oracle row req service host env).1
        = HandlerOut.resp
            { status := R.status, body := R.body, headers := applyCorsHeaders R.headers }
    ∧ (handleRequestWithRotation oracle row req service host env).2.length = t + 1 := by
  rw [handler_rotation oracle row req service host env m keys hm hmk hex hcfg hne hdb]
  dsimp only
  have hmain := rotationLoop_stop oracle req service host
    (substringFrom req.path (service.length + 1)) keys R hR t
    (maxRetriesNat (rotationLimitOf env) keys.length) 0
    (getNextKeyIndex row keys.length).1 none ht
    (fun j hj => by simpa using hpre j hj) (by simpa using hT)
  exact ⟨by rw [hmain.1]; rfl, hmain.2⟩

/-- Witness for claim C4: the first attempt rate-limits, the second succeeds
with status 200 and stops the loop after exactly two calls. -/
theorem rotation_non429_stops_witness :
    (handleRequestWithRotation oracleMix none reqRotW "openai" "api.openai.com" envRotW).1
        = HandlerOut.resp
            { status := 200, body := "hello",
              headers := applyCorsHeaders ([] : List (String × String)) }
    ∧ (handleRequestWithRotation oracleMix none reqRotW "openai" "api.openai.com"
        envRotW).2.length = 1 + 1 :=
  rotation_non429_stops oracleMix none reqRotW "openai" "api.openai.com" envRotW "M"
    ["k1", "k2", "k3"] resp200W 1 (by decide) rfl (by decide) rfl (by decide) rfl (by decide)
    (fun j hj => by
      have hj0 : j = 0 := by omega
      subst hj0
      rfl)
    rfl (by decide)

/-- Claim C2 (refuted): evaluation of the counter advance at the failing
input.  With pool size 2 starting from an absent row, the second call
stores the post-increment value 0, which the JS falsy coercion replaces by
1, so the call returns index 0 where the claimed conversion of the
post-increment value gives 1; two sequential calls yield the indices
`[0, 0]`, not a full cycle through the pool. -/
theorem counter_wrap_anomaly :
    getNextKeyIndexRun none 2 2 = [0, 0]
    ∧ d1AdvanceRow (some 1) 2 = (0, 0)
    ∧ ((d1AdvanceRow (some 1) 2).1 + 2 - 1) % 2 = 1
    ∧ getNextKeyIndexRun none 2 2 ≠ [0, 1]
    ∧ getNextKeyIndexRun none 2 2 ≠ [1, 0] := by decide

/-- Claim C5 (refuted for inherited property names): a request with an
ordinary unknown first segment gets the 325 response with no upstream call
and no log even though LOGS is on, and a path with no segments likewise;
but the first segments naming inherited `Object.prototype` members pass the
truthiness validation of line 126 although they are not providers, so the
worker does not return 325 for them (their further behavior, with a
function object assigned as hostname, is outside the model). -/
theorem malformed_path_validation :
    workerFetch oracleAll200 none envLogsOnly reqFoo
      = some { response := resp325, calls := [], log := none }
    ∧ workerFetch oracleAll200 none envLogsOnly
        { method := "GET", path := "/", queryKey := none, headers := [], jsonModelField := none }
      = some { response := resp325, calls := [], log := none }
    ∧ routeMapTruthy "constructor" = true
    ∧ ROUTE_MAP "constructor" = none
    ∧ workerFetch oracleAll200 none envLogsOnly reqCtor = none
    ∧ (["toString", "hasOwnProperty", "valueOf", "__proto__"].all routeMapTruthy) = true := by
  decide

/-- An environment whose ROTATION_LIMIT value does not parse as a number. -/
def envNaN : Env :=
  { MASTER_KEY := some "M", keysCfg := fun _ => KeysCfg.array ["k1", "k2", "k3"],
    ROTATION_LIMIT := some "unlimited", LOGS := true, DB := true }

/-- Claim C10: when ROTATION_LIMIT is set to a string on which parseInt
yields NaN, the rotation loop performs zero upstream attempts and the
caller receives the generic exhaustion 429 response, because the JS minimum
of NaN and the pool size makes the loop condition false on entry. -/
theorem nan_limit_zero_attempts
    (oracle : Nat → FetchOutcome) (row : Option Nat) (env : Env) (req : Req)
    (service host : String) (rest : List String) (m s : String) (keys : List String)
    (hsegs : pathSegments req.path = service :: rest)
    (hroute : ROUTE_MAP service = some host)
    (hm : req.method ≠ "OPTIONS")
    (hmk : env.MASTER_KEY = some m)
    (hex : extractApiKey req service = some m)
    (hcfg : env.keysCfg service = KeysCfg.array keys)
    (hne : keys ≠ [])
    (hdb : env.DB = true)
    (hrl : env.ROTATION_LIMIT = some s)
    (hnan : jsParseInt s = none) :
    (workerFetch oracle row env req).map (fun w => (w.response, w.calls))
      = some (exhaustedResp, []) := by
  have htruthy : routeMapTruthy service = true := by simp [routeMapTruthy, hroute]
  have hlim : rotationLimitOf env = none := by simp [rotationLimitOf, hrl, hnan]
  have hmaxr : maxRetriesNat (rotationLimitOf env) keys.length = 0 := by rw [hlim]; rfl
  have hh := handler_rotation oracle row req service host env m keys hm hmk hex hcfg hne hdb
  rw [hmaxr] at hh
  simp [workerFetch, hsegs, htruthy, hroute, hh, rotationLoop, rotationExit]

/-- Witness for claim C10 with the unparsable limit value `unlimited`. -/
theorem nan_limit_zero_attempts_witness :
    (workerFetch oracleAll429 none envNaN reqRotW).map (fun w => (w.response, w.calls))
      = some (exhaustedResp, []) :=
  nan_limit_zero_attempts oracleAll429 none envNaN reqRotW "openai" "api.openai.com"
    ["v1", "chat"] "M" "unlimited" ["k1", "k2", "k3"] (by decide) rfl (by decide) rfl
    (by decide) rfl (by decide) rfl rfl rfl

end ApiCf

namespace ApiCf

/-- An environment selecting rotation but with no pool configured. -/
def envNoPool : Env :=
  { MASTER_KEY := some "M", keysCfg := fun _ => KeysCfg.absent,
    ROTATION_LIMIT := none, LOGS := true, DB := true }

/-- Claim C6 counterexample: with the LOGS binding configured, a
rotation-selected request with no configured pool gets the 326 response
with no upstream call — but the request IS logged to observability (the 326
response flows through the normal logging path of fetch), refuting the
claim that it is never logged. -/
theorem no_pool_logged_counterexample :
    workerFetch oracleAll200 none envNoPool reqRotW
      = some { response := resp326, calls := [],
               log := some { service := "openai", model := "gpt-4o",
                             errorMsg := none, status := 326 } } := by decide

/-- Claim C6 (amended): when rotation mode is selected but the pool
configuration is absent, parses to a non-array, or parses to an empty
array, the response is the 326 configuration error and no upstream call is
made; the request is logged to observability exactly when the LOGS binding
is configured. -/
theorem no_pool_326
    (oracle : Nat → FetchOutcome) (row : Option Nat) (env : Env) (req : Req)
    (service host : String) (rest : List String) (m : String)
    (hsegs : pathSegments req.path = service :: rest)
    (hroute : ROUTE_MAP service = some host)
    (hm : req.method ≠ "OPTIONS")
    (hmk : env.MASTER_KEY = some m)
    (hex : extractApiKey req service = some m)
    (hcfg : env.keysCfg service = KeysCfg.absent ∨ env.keysCfg service = KeysCfg.nonArray
            ∨ env.keysCfg service = KeysCfg.array []) :
    (workerFetch oracle row env req).map (fun w => (w.response, w.calls, w.log.isSome))
      = some (resp326, [], env.LOGS) := by
  have htruthy : routeMapTruthy service = true := by simp [routeMapTruthy, hroute]
  have hh : handleRequestWithRotation oracle row req service host env
      = (HandlerOut.resp resp326, []) := by
    rcases hcfg with h | h | h <;>
      simp [handleRequestWithRotation, hm, hmk, hex, h]
  simp only [workerFetch, hsegs, htruthy, if_true, hroute, hh]
  cases hl : env.LOGS <;> simp [hl]

/-- Witness for claim C6 with a pool value that parses to a non-array. -/
theorem no_pool_326_witness :
    (workerFetch oracleAll200 none
        { MASTER_KEY := some "M", keysCfg := fun _ => KeysCfg.nonArray,
          ROTATION_LIMIT := none, LOGS := true, DB := true } reqRotW).map
        (fun w => (w.response, w.calls, w.log.isSome))
      = some (resp326, [], true) :=
  no_pool_326 oracleAll200 none
    { MASTER_KEY := some "M", keysCfg := fun _ => KeysCfg.nonArray,
      ROTATION_LIMIT := none, LOGS := true, DB := true } reqRotW "openai" "api.openai.com"
    ["v1", "chat"] "M" (by decide) rfl (by decide) rfl (by decide) (Or.inr (Or.inl rfl))

/-- A pass-through request whose path has a doubled leading slash. -/
def reqSlashSlash : Req :=
  { method := "GET", path := "//openai/x", queryKey := none, headers := [],
    jsonModelField := none }

/-- Claim C7 counterexample: the code strips `service.length + 1` leading
code units rather than the provider segment, so for the valid provider path
with a doubled slash, the outbound path keeps a stray remainder of the
provider name instead of being the inbound path with the provider segment
removed. -/
theorem passthrough_strip_counterexample :
    (workerFetch oracleAll200 none envLogsOnly reqSlashSlash).map
        (fun w => w.calls.map (fun c => c.request.path))
      = some ["i/x"]
    ∧ specStripLeadingSegment "//openai/x" = "/x"
    ∧ ("i/x" : String) ≠ "/x" := by decide

/-- Claim C7 (amended): for every non-OPTIONS request on a canonical
provider path (a single leading slash, then the provider name, then the
rest) that is not rotation-eligible, exactly one upstream call is made
regardless of its response status; the outbound request carries the
original inbound headers unchanged (including the credential of the
caller), the original method and query, the upstream host of the provider,
and the inbound path with the leading provider segment stripped. -/
theorem passthrough_one_call
    (oracle : Nat → FetchOutcome) (row : Option Nat) (env : Env) (req : Req)
    (service host rest : String) (segsRest : List String) (R : Resp)
    (hsegs : pathSegments req.path = service :: segsRest)
    (hroute : ROUTE_MAP service = some host)
    (hm : req.method ≠ "OPTIONS")
    (hmode : ∀ mk, env.MASTER_KEY = some mk → extractApiKey req service ≠ some mk)
    (hpath : req.path = "/" ++ service ++ rest)
    (horacle : oracle 0 = FetchOutcome.ok R) :
    (workerFetch oracle row env req).map (fun w => (w.response, w.calls))
      = some (corsOf R,
          [{ request := { host := host, path := rest, method := req.method,
                          headers := req.headers, queryKey := req.queryKey },
             keyIndex := none }]) := by
  have htruthy : routeMapTruthy service = true := by simp [routeMapTruthy, hroute]
  have hlen : ("/" ++ service).length = service.length + 1 := by
    have h1 : ("/" : String).length = 1 := rfl
    rw [String.length_append, h1]
    omega
  have hdrop : substringFrom req.path (service.length + 1) = rest := by
    rw [hpath, ← hlen]
    exact substringFrom_of_append ("/" ++ service) rest
  have hh : handleRequestWithRotation oracle row req service host env
      = passThrough oracle req host rest := by
    unfold handleRequestWithRotation
    rw [if_neg hm]
    show (match env.MASTER_KEY with
          | some masterKey =>
            if extractApiKey req service = some masterKey then _ else
              passThrough oracle req host (substringFrom req.path (service.length + 1))
          | none => passThrough oracle req host (substringFrom req.path (service.length + 1)))
        = passThrough oracle req host rest
    cases hmk : env.MASTER_KEY with
    | none => rw [hdrop]
    | some mk =>
      have hne := hmode mk hmk
      simp only [hne, if_false, ite_false, hdrop]
  simp [workerFetch, hsegs, htruthy, hroute, hh, passThrough, horacle]

/-- A pass-through request carrying the credential of the caller. -/
def reqPT : Req :=
  { method := "GET", path := "/openai/v1/models", queryKey := none,
    headers := [("Authorization", "Bearer USER")], jsonModelField := none }

/-- Witness for claim C7: a pass-through request is forwarded once to the
upstream host with its headers unchanged and the provider segment
stripped. -/
theorem passthrough_one_call_witness :
    (workerFetch oracleAll200 none envLogsOnly reqPT).map (fun w => (w.response, w.calls))
      = some (corsOf resp200W,
          [{ request := { host := "api.openai.com", path := "/v1/models", method := "GET",
                          headers := [("Authorization", "Bearer USER")], queryKey := none },
             keyIndex := none }]) :=
  passthrough_one_call oracleAll200 none envLogsOnly reqPT "openai" "api.openai.com"
    "/v1/models" ["v1", "models"] resp200W (by decide) rfl (by decide)
    (fun mk hmk => Option.noConfusion hmk) (by decide) rfl

end ApiCf

namespace ApiCf

/-- Claim C8 counterexample: the 325 malformed-path response is returned
without any CORS stamping, refuting the claim that every response to the
caller carries the permissive CORS headers. -/
theorem cors_missing_on_error_counterexample :
    (workerFetch oracleAll200 none envLogsOnly reqFoo).map
        (fun w => headerHas w.response.headers "Access-Control-Allow-Origin")
      = some false
    ∧ (workerFetch oracleAll429 none envNaN reqRotW).map
        (fun w => headerHas w.response.headers "Access-Control-Allow-Origin")
      = some false := by decide

/-- Claim C8 (amended): the CORS stamping applies to every response derived
from an upstream response (rotation return, exhaustion-with-last-429
return, pass-through return) and to the OPTIONS 204 response, is skipped
exactly when an `Access-Control-Allow-Origin` header is already present
(idempotent), and sets the permissive origin, methods and allowed-headers
values; the directly constructed error responses (325 malformed path, 326
missing pool, generic exhaustion 429) carry no CORS headers. -/
theorem cors_stamping :
    (∀ hs : List (String × String),
        headerHas (applyCorsHeaders hs) "Access-Control-Allow-Origin" = true)
    ∧ (∀ hs : List (String × String),
        headerHas hs "Access-Control-Allow-Origin" = true → applyCorsHeaders hs = hs)
    ∧ (∀ r : Resp, corsOf r
        = { status := r.status, body := r.body, headers := applyCorsHeaders r.headers })
    ∧ (∀ (oracle : Nat → FetchOutcome) (req : Req) (host outPath : String) (R : Resp),
        oracle 0 = FetchOutcome.ok R →
        (passThrough oracle req host outPath).1 = HandlerOut.resp (corsOf R))
    ∧ headerGet handleOptionsResp.headers "Access-Control-Allow-Origin" = some "*"
    ∧ headerGet handleOptionsResp.headers "Access-Control-Allow-Methods"
        = some "GET, POST, PUT, DELETE, PATCH, OPTIONS"
    ∧ headerGet handleOptionsResp.headers "Access-Control-Allow-Headers" = some corsAllowHeaders
    ∧ headerHas resp325.headers "Access-Control-Allow-Origin" = false
    ∧ headerHas resp326.headers "Access-Control-Allow-Origin" = false
    ∧ headerHas exhaustedResp.headers "Access-Control-Allow-Origin" = false := by
  refine ⟨?_, ?_, ?_, ?_, by decide, by decide, by decide, by decide, by decide, by decide⟩
  · intro hs
    unfold applyCorsHeaders
    by_cases h : headerHas hs "Access-Control-Allow-Origin"
    · rw [if_pos h]
      exact h
    · rw [if_neg h]
      rw [headerHas_set_other _ _ _ _ (by decide), headerHas_set_other _ _ _ _ (by decide)]
      exact headerHas_set_self hs _ _
  · intro hs h
    unfold applyCorsHeaders
    rw [if_pos h]
  · intro r
    rfl
  · intro oracle req host outPath R h
    unfold passThrough
    rw [h]

/-- Witness for claim C8: stamping adds the origin header to an empty header
list and leaves a list already carrying one unchanged. -/
theorem cors_stamping_witness :
    headerHas (applyCorsHeaders []) "Access-Control-Allow-Origin" = true
    ∧ applyCorsHeaders [("Access-Control-Allow-Origin", "null")]
        = [("Access-Control-Allow-Origin", "null")] :=
  ⟨cors_stamping.1 [],
   cors_stamping.2.1 [("Access-Control-Allow-Origin", "null")] (by decide)⟩

/-- A gemini request with a models path, sent with the GET method. -/
def reqGemGet : Req :=
  { method := "GET", path := "/gemini/v1beta/models/gemini-pro:generateContent",
    queryKey := none, headers := [], jsonModelField := none }

/-- Claim C9 counterexample: with observability enabled, a gemini GET
request whose path contains the segment `models` followed by
`gemini-pro:generateContent` is logged with model `unknown`, not
`gemini-pro` — the code only extracts the model on POST requests, while the
claim covers every gemini request. -/
theorem gemini_get_model_counterexample :
    (workerFetch oracleAll200 none envLogsOnly reqGemGet).map
        (fun w => w.log.map (fun rec => rec.model))
      = some (some "unknown")
    ∧ ("unknown" : String) ≠ "gemini-pro" := by decide

/-- Claim C9 (amended): when observability is enabled and the request is a
POST, the model field of the emitted record is computed totally as follows:
for gemini, when the path segment at index 2 is `models` and a segment at
index 3 exists, the model is that segment truncated at the first colon
(with an empty result replaced by `unknown`); for every other provider, the
model is the `model` field of the best-effort JSON body parse, with parse
failure or a missing or empty field yielding `unknown`. -/
theorem model_extraction :
    (∀ (oracle : Nat → FetchOutcome) (row : Option Nat) (env : Env) (req : Req)
       (seg1 m : String) (rest : List String),
      pathSegments req.path = "gemini" :: seg1 :: "models" :: m :: rest →
      req.method = "POST" → env.LOGS = true →
      (workerFetch oracle row env req).map (fun w => w.log.map (fun rec => rec.model))
        = some (some (if ((splitOnChar ':' m).headD "") = "" then "unknown"
                      else (splitOnChar ':' m).headD "")))
    ∧ (∀ (oracle : Nat → FetchOutcome) (row : Option Nat) (env : Env) (req : Req)
         (service host : String) (rest : List String),
        pathSegments req.path = service :: rest →
        ROUTE_MAP service = some host → service ≠ "gemini" →
        req.method = "POST" → env.LOGS = true →
        (workerFetch oracle row env req).map (fun w => w.log.map (fun rec => rec.model))
          = some (some (match req.jsonModelField with
                        | some mv => if mv = "" then "unknown" else mv
                        | none => "unknown"))) := by
  constructor
  · intro oracle row env req seg1 m rest hsegs hpost hlogs
    have htruthy : routeMapTruthy "gemini" = true := by decide
    have hroutg : ROUTE_MAP "gemini" = some "generativelanguage.googleapis.com" := rfl
    have hmodel : extractModel env req "gemini" ("gemini" :: seg1 :: "models" :: m :: rest)
        = (if ((splitOnChar ':' m).headD "") = "" then "unknown"
           else (splitOnChar ':' m).headD "") := by
      simp only [extractModel, hlogs, hpost, and_self, if_true, List.length_cons]
      have hcond : (4 ≤ rest.length + 1 + 1 + 1 + 1
          ∧ (("gemini" :: seg1 :: "models" :: m :: rest).getD 2 "") = "models") := by
        constructor
        · omega
        · rfl
      rw [if_pos hcond]
      rfl
    rcases hh : handleRequestWithRotation oracle row req "gemini"
        "generativelanguage.googleapis.com" env with ⟨out, calls⟩
    cases out with
    | resp r =>
      simp [workerFetch, hsegs, htruthy, hroutg, hh, hmodel, hlogs]
    | thrown msg =>
      simp [workerFetch, hsegs, htruthy, hroutg, hh, hmodel, hlogs]
  · intro oracle row env req service host rest hsegs hroute hserv hpost hlogs
    have htruthy : routeMapTruthy service = true := by simp [routeMapTruthy, hroute]
    have hmodel : extractModel env req service (service :: rest)
        = (match req.jsonModelField with
           | some mv => if mv = "" then "unknown" else mv
           | none => "unknown") := by
      simp only [extractModel, hlogs, hpost, and_self, if_true]
      rw [if_neg hserv]
    rcases hh : handleRequestWithRotation oracle row req service host env with ⟨out, calls⟩
    cases out with
    | resp r =>
      simp [workerFetch, hsegs, htruthy, hroute, hh, hmodel, hlogs]
    | thrown msg =>
      simp [workerFetch, hsegs, htruthy, hroute, hh, hmodel, hlogs]

/-- A gemini request with a models path, sent with the POST method. -/
def reqGemPost : Req :=
  { method := "POST", path := "/gemini/v1beta/models/gemini-pro:generateContent",
    queryKey := none, headers := [], jsonModelField := none }

/-- Witness for claim C9: a gemini POST logs the path-derived model, and an
openai POST logs the body-derived model. -/
theorem model_extraction_witness :
    (workerFetch oracleAll200 none envLogsOnly reqGemPost).map
        (fun w => w.log.map (fun rec => rec.model))
      = some (some (if ((splitOnChar ':' "gemini-pro:generateContent").headD "") = ""
                    then "unknown"
                    else (splitOnChar ':' "gemini-pro:generateContent").headD ""))
    ∧ (workerFetch oracleAll200 none envLogsOnly reqRotW).map
        (fun w => w.log.map (fun rec => rec.model))
      = some (some (match (some "gpt-4o" : Option String) with
                    | some mv => if mv = "" then "unknown" else mv
                    | none => "unknown")) :=
  ⟨model_extraction.1 oracleAll200 none envLogsOnly reqGemPost "v1beta"
      "gemini-pro:generateContent" [] (by decide) rfl rfl,
   model_extraction.2 oracleAll200 none envLogsOnly reqRotW "openai" "api.openai.com"
      ["v1", "chat"] (by decide) rfl (by decide) rfl rfl⟩

end ApiCf
